import Mathlib

/-
Verification of the trace-instrumentation engine of the vite-express-template
repository. The definitions below are shallow embeddings translated from:
  - src/server/tracing/ts-morph-function-tracer.ts
  - src/server/tracing/express-endpoint-instrumenter.ts
  - src/server/tracing/babel-plugin-function-logger.js
  - src/server/tracing/safe-json-serializer.ts
  - src/server/tracing/build-with-babel.ts
  - the ts.factory based transformer drafts (unnamed parts 001, 003, 004)
Each definition carries a comment naming the source function it embeds.
-/

/-! ## JavaScript value model

A finite tree model of the runtime values that flow through the injected
logging code: primitives, Error instances, promise objects, arrays and
plain objects. Identity-dependent behavior (the WeakSet of the structural
serializer) is modelled separately with an explicit heap further below. -/

inductive JVal where
  | null
  | undefV
  | bool (b : Bool)
  | num (n : Int)
  | str (s : String)
  /-- an Error instance with fields name and message; String(e) = name ++ ": " ++ message -/
  | err (ename emsg : String)
  /-- a pending promise object: no own enumerable properties -/
  | promiseV
  | arr (elems : List JVal)
  | obj (fields : List (String × JVal))
deriving Repr

/-- JSON string escaping for one character (quotation mark and backslash;
the log payloads in the claims contain no control characters). -/
def jsonEscapeChar (c : Char) : List Char :=
  if c = '"' then ['\\', '"'] else if c = '\\' then ['\\', '\\'] else [c]

/-- A JSON string literal: quote and escape. -/
def quoteJson (s : String) : String :=
  "\"" ++ String.mk (s.data.foldl (fun acc c => acc ++ jsonEscapeChar c) []) ++ "\""

/-- The display string of a JS Error, String(e), used by the replacer of
generateSafeToString (ts-morph-function-tracer.ts lines 412-430) and of
safeToStringCode (build-with-babel.ts lines 6-21). -/
def errDisplay (ename emsg : String) : String := ename ++ ": " ++ emsg

/-- JSON.stringify with the replacer of generateSafeToString: Error
instances are converted to String(e), all other values pass through.
Returns none where JSON.stringify returns the undefined result
(top-level undefined). Arrays render omitted members as null; objects
drop fields whose value does not stringify, as JSON.stringify does. -/
def stringifyErrRep : JVal → Option String
  | .null => some "null"
  | .undefV => none
  | .bool b => some (cond b "true" "false")
  | .num n => some (toString n)
  | .str s => some (quoteJson s)
  | .err ename emsg => some (quoteJson (errDisplay ename emsg))
  | .promiseV => some "\x7b\x7d"
  | .arr es => some ("[" ++ String.intercalate "," (serElems es) ++ "]")
  | .obj fs => some ("\x7b" ++ String.intercalate "," (serFieldsV fs) ++ "\x7d")
where
  serElems : List JVal → List String
    | [] => []
    | e :: es => (stringifyErrRep e).getD "null" :: serElems es
  serFieldsV : List (String × JVal) → List String
    | [] => []
    | (k, v) :: fs =>
      match stringifyErrRep v with
      | some s => (quoteJson k ++ ":" ++ s) :: serFieldsV fs
      | none => serFieldsV fs

/-- The injected safeToString on tree values (generateSafeToString /
safeToStringCode): JSON.stringify with the Error replacer; a tree value
never makes JSON.stringify raise, and an undefined stringify result is
rendered as the text undefined by the template literal interpolation at
every call site. -/
def safeToString (v : JVal) : String := (stringifyErrRep v).getD "undefined"

/-! ## C1: the three-tier fallback of safeToString

The injected function is

  function safeToString(value) \x7b
    try \x7b return JSON.stringify(value, replacer) \x7d
    catch (e) \x7b
      try \x7b return String(value) \x7d
      catch (e2) \x7b return [stringify error] \x7d \x7d \x7d

The two primitive operations can raise on arbitrary runtime values
(cyclic structures, BigInt, hostile toString), so each tier is modelled
as an outcome: either a string or a raised exception. -/

/-- Outcome of evaluating a JS expression: a value or a raised exception. -/
inductive JsOutcome (A : Type) where
  | ok (a : A)
  | thrown (e : String)
deriving Repr, DecidableEq

/-- JS try/catch: run the body; on a raised exception run the handler. -/
def tryCatch {A : Type} (body : JsOutcome A) (handler : String → JsOutcome A) :
    JsOutcome A :=
  match body with
  | .ok a => .ok a
  | .thrown e => handler e

/-- The injected safeToString, parametric in the outcomes of its two
fallible primitives: tier (a) JSON.stringify with the Error replacer,
tier (b) String(value). Translated from generateSafeToString
(ts-morph-function-tracer.ts lines 412-430) and safeToStringCode
(build-with-babel.ts lines 6-21): nested try/catch, fixed final literal. -/
def safeToStringRun (stringifyTier stringTier : JsOutcome String) :
    JsOutcome String :=
  tryCatch stringifyTier (fun _ =>
    tryCatch stringTier (fun _ => .ok "[stringify error]"))

/-- The replacer passed to JSON.stringify by safeToString:
(key, val) => val instanceof Error ? String(val) : val. -/
def errorReplacer (v : JVal) : JVal :=
  match v with
  | .err ename emsg => .str (errDisplay ename emsg)
  | v => v

/-- C1: for every runtime value given to the injected safeToString, the
function returns a string and never raises: it first attempts
JSON.stringify with a replacer converting Error instances to their
string form; if that raises it falls back to String(value); if that also
raises it returns the fixed literal [stringify error]. -/
theorem safeToString_three_tier_total :
    (∀ t2 : JsOutcome String, ∀ s : String,
        safeToStringRun (.ok s) t2 = .ok s) ∧
    (∀ e s : String, safeToStringRun (.thrown e) (.ok s) = .ok s) ∧
    (∀ e1 e2 : String,
        safeToStringRun (.thrown e1) (.thrown e2) = .ok "[stringify error]") ∧
    (∀ t1 t2 : JsOutcome String, ∃ s : String, safeToStringRun t1 t2 = .ok s) ∧
    (∀ ename emsg : String,
        errorReplacer (.err ename emsg) = .str (errDisplay ename emsg)) ∧
    (∀ v : JVal, (∀ ename emsg : String, v ≠ .err ename emsg) →
        errorReplacer v = v) := by
  refine ⟨fun t2 s => rfl, fun e s => rfl, fun e1 e2 => rfl, ?_, fun a b => rfl, ?_⟩
  · intro t1 t2
    cases t1 with
    | ok s => exact ⟨s, rfl⟩
    | thrown e =>
      cases t2 with
      | ok s => exact ⟨s, rfl⟩
      | thrown e2 => exact ⟨"[stringify error]", rfl⟩
  · intro v h
    cases v with
    | err ename emsg => exact absurd rfl (h ename emsg)
    | null => rfl
    | undefV => rfl
    | bool b => rfl
    | num n => rfl
    | str s => rfl
    | promiseV => rfl
    | arr es => rfl
    | obj fs => rfl

/-- Witness for C1: the theorem applied at concrete inputs, discharging
the non-Error hypothesis at the value 3. -/
theorem safeToString_three_tier_total_app :
    safeToStringRun (.thrown "cyclic") (.thrown "hostile") =
      .ok "[stringify error]" ∧
    errorReplacer (.num 3) = .num 3 := by
  refine ⟨safeToString_three_tier_total.2.2.1 "cyclic" "hostile", ?_⟩
  exact safeToString_three_tier_total.2.2.2.2.2 (.num 3)
    (by intro ename emsg h; cases h)

/-! ## Wrapper runtime semantics

The generated wrapper of createStandaloneWrapper
(ts-morph-function-tracer.ts lines 292-328) is, for a non-async
construct,

  const original = f;
  f = function(...args) \x7b
    console.log(ENTER line with safeToString(args));
    try \x7b
      const result = original.apply(this, args);
      console.log(EXIT line with safeToString(result));
      return result;
    \x7d catch (error) \x7b
      console.log(ERROR line with safeToString(error));
      throw error;
    \x7d \x7d;

and for an async construct the same with async function and
await original.apply(this, args). The observable behavior of one
invocation of the original callable is one of: return of a non-thenable
value, return of a thenable that later resolves or rejects, or a
synchronous throw. -/

/-- Eventual behavior of a thenable: it resolves with a value or rejects
with a reason. -/
inductive PromiseB where
  | resolves (v : JVal)
  | rejects (e : JVal)
deriving Repr

/-- Observable outcome of invoking a callable once: return of a
non-thenable value, return of a thenable, or a synchronous throw. -/
inductive CallB where
  | ret (v : JVal)
  | thenable (p : PromiseB)
  | thr (e : JVal)
deriving Repr

/-- One log line of the FUNCTION family:
PHASE|FUNCTION|file|scope|name|payload. -/
def fnLogLine (phase file scope fname payload : String) : String :=
  phase ++ "|FUNCTION|" ++ file ++ "|" ++ scope ++ "|" ++ fname ++ "|" ++ payload

/-- With the empty module scope the line shows a double pipe. -/
theorem fnLogLine_empty_scope (phase file fname payload : String) :
    fnLogLine phase file "" fname payload =
      phase ++ "|FUNCTION|" ++ file ++ "||" ++ fname ++ "|" ++ payload := by
  apply String.ext
  simp [fnLogLine, String.data_append]

/-- One invocation of the non-async wrapper of createStandaloneWrapper
(ts-morph-function-tracer.ts lines 311-327) around an original callable
f, at an argument list: the emitted log lines in order, and the outcome
the wrapper itself produces for the caller. A thenable result is not
awaited: it is logged with EXIT at once (a promise serializes to the
empty object) and returned unchanged; no continuation is attached. -/
def syncWrapperRun (file fname : String) (f : List JVal → CallB)
    (args : List JVal) : List String × CallB :=
  let enter := fnLogLine "ENTER" file "" fname (safeToString (.arr args))
  match f args with
  | .thr e =>
      ([enter, fnLogLine "ERROR" file "" fname (safeToString e)], .thr e)
  | .ret v =>
      ([enter, fnLogLine "EXIT" file "" fname (safeToString v)], .ret v)
  | .thenable p =>
      ([enter, fnLogLine "EXIT" file "" fname (safeToString .promiseV)],
       .thenable p)

/-- One invocation of the async wrapper of createStandaloneWrapper
(ts-morph-function-tracer.ts lines 295-310): the result of the original
is awaited, so a returned thenable is unwrapped; the wrapper itself is an
async function and always hands the caller a thenable. Continuation log
lines are listed in emission order after the synchronous ENTER line. -/
def asyncWrapperRun (file fname : String) (f : List JVal → CallB)
    (args : List JVal) : List String × CallB :=
  let enter := fnLogLine "ENTER" file "" fname (safeToString (.arr args))
  match f args with
  | .thr e =>
      ([enter, fnLogLine "ERROR" file "" fname (safeToString e)],
       .thenable (.rejects e))
  | .ret v =>
      ([enter, fnLogLine "EXIT" file "" fname (safeToString v)],
       .thenable (.resolves v))
  | .thenable (.resolves v) =>
      ([enter, fnLogLine "EXIT" file "" fname (safeToString v)],
       .thenable (.resolves v))
  | .thenable (.rejects e) =>
      ([enter, fnLogLine "ERROR" file "" fname (safeToString e)],
       .thenable (.rejects e))

/-- One invocation of a non-async function instrumented by injectLogging
(babel-plugin-function-logger.js lines 126-151): ENTER with the spread
arguments array, then const result = (body as thunk)(); EXIT with the
result and return it, the catch clause logging ERROR and rethrowing the
same value. The body of the original construct is modelled by its
outcome at the given arguments. -/
def babelSyncRun (file fname : String) (body : List JVal → CallB)
    (args : List JVal) : List String × CallB :=
  let enter := fnLogLine "ENTER" file "" fname (safeToString (.arr args))
  match body args with
  | .thr e =>
      ([enter, fnLogLine "ERROR" file "" fname (safeToString e)], .thr e)
  | .ret v =>
      ([enter, fnLogLine "EXIT" file "" fname (safeToString v)], .ret v)
  | .thenable p =>
      ([enter, fnLogLine "EXIT" file "" fname (safeToString .promiseV)],
       .thenable p)

/-- One invocation of an async function instrumented by injectLogging
(babel-plugin-function-logger.js lines 99-125): the body runs inside an
async thunk whose result is awaited; the surrounding function is async,
so the caller receives a thenable. -/
def babelAsyncRun (file fname : String) (body : List JVal → CallB)
    (args : List JVal) : List String × CallB :=
  let enter := fnLogLine "ENTER" file "" fname (safeToString (.arr args))
  match body args with
  | .thr e =>
      ([enter, fnLogLine "ERROR" file "" fname (safeToString e)],
       .thenable (.rejects e))
  | .ret v =>
      ([enter, fnLogLine "EXIT" file "" fname (safeToString v)],
       .thenable (.resolves v))
  | .thenable (.resolves v) =>
      ([enter, fnLogLine "EXIT" file "" fname (safeToString v)],
       .thenable (.resolves v))
  | .thenable (.rejects e) =>
      ([enter, fnLogLine "ERROR" file "" fname (safeToString e)],
       .thenable (.rejects e))

/-- C4: for every wrapped construct whose invocation throws
synchronously, the wrapper emits ERROR with the thrown value and then
re-throws the identical value; the error is never swallowed, re-typed,
re-wrapped, or delayed (the trace is exactly ENTER then ERROR, with no
EXIT), and a rejection of an awaited result is re-rejected with the
identical reason. Stated for the ts-morph standalone wrappers and the
babel plugin wrappers. -/
theorem wrapper_error_identity_propagation :
    (∀ (file fname : String) (f : List JVal → CallB) (args : List JVal)
        (e : JVal), f args = .thr e →
        syncWrapperRun file fname f args =
          ([fnLogLine "ENTER" file "" fname (safeToString (.arr args)),
            fnLogLine "ERROR" file "" fname (safeToString e)], .thr e)) ∧
    (∀ (file fname : String) (f : List JVal → CallB) (args : List JVal)
        (e : JVal), f args = .thr e →
        asyncWrapperRun file fname f args =
          ([fnLogLine "ENTER" file "" fname (safeToString (.arr args)),
            fnLogLine "ERROR" file "" fname (safeToString e)],
           .thenable (.rejects e))) ∧
    (∀ (file fname : String) (f : List JVal → CallB) (args : List JVal)
        (e : JVal), f args = .thenable (.rejects e) →
        asyncWrapperRun file fname f args =
          ([fnLogLine "ENTER" file "" fname (safeToString (.arr args)),
            fnLogLine "ERROR" file "" fname (safeToString e)],
           .thenable (.rejects e))) ∧
    (∀ (file fname : String) (body : List JVal → CallB) (args : List JVal)
        (e : JVal), body args = .thr e →
        babelSyncRun file fname body args =
          ([fnLogLine "ENTER" file "" fname (safeToString (.arr args)),
            fnLogLine "ERROR" file "" fname (safeToString e)], .thr e)) ∧
    (∀ (file fname : String) (body : List JVal → CallB) (args : List JVal)
        (e : JVal), body args = .thenable (.rejects e) →
        babelAsyncRun file fname body args =
          ([fnLogLine "ENTER" file "" fname (safeToString (.arr args)),
            fnLogLine "ERROR" file "" fname (safeToString e)],
           .thenable (.rejects e))) := by
  refine ⟨?_, ?_, ?_, ?_, ?_⟩ <;>
    intro file fname f args e h <;>
      simp [syncWrapperRun, asyncWrapperRun, babelSyncRun, babelAsyncRun, h]

/-- Witness for C4: the theorem applied to a concrete construct that
throws a concrete Error. -/
theorem wrapper_error_identity_propagation_app :
    syncWrapperRun "f.ts" "f" (fun _ => .thr (.err "Error" "boom")) [] =
      ([fnLogLine "ENTER" "f.ts" "" "f" (safeToString (.arr [])),
        fnLogLine "ERROR" "f.ts" "" "f" (safeToString (.err "Error" "boom"))],
       .thr (.err "Error" "boom")) ∧
    asyncWrapperRun "f.ts" "f"
        (fun _ => .thenable (.rejects (.err "Error" "boom"))) [] =
      ([fnLogLine "ENTER" "f.ts" "" "f" (safeToString (.arr [])),
        fnLogLine "ERROR" "f.ts" "" "f" (safeToString (.err "Error" "boom"))],
       .thenable (.rejects (.err "Error" "boom"))) := by
  exact ⟨wrapper_error_identity_propagation.1 "f.ts" "f" _ [] _ rfl,
    wrapper_error_identity_propagation.2.2.1 "f.ts" "f" _ [] _ rfl⟩

/-! ## C5: the add(2, 3) scenario -/

/-- The scenario construct of C5: a module-scope function add(a, b)
returning a + b; the scenario invokes it with two numbers. -/
def addBehavior : List JVal → CallB
  | [JVal.num a, JVal.num b] => .ret (.num (a + b))
  | _ => .ret .undefV

/-- C5: after instrumentation, invoking add(2, 3) prints an ENTER line
ENTER|FUNCTION|file||add|payload whose payload serializes to [2,3], then
an EXIT line whose payload serializes to 5, and returns 5 to the caller.
Stated for the ts-morph standalone wrapper and the babel plugin wrapper,
for every file base name. -/
theorem add_scenario_trace (file : String) :
    syncWrapperRun file "add" addBehavior [.num 2, .num 3] =
      (["ENTER|FUNCTION|" ++ file ++ "||add|[2,3]",
        "EXIT|FUNCTION|" ++ file ++ "||add|5"], .ret (.num 5)) ∧
    babelSyncRun file "add" addBehavior [.num 2, .num 3] =
      (["ENTER|FUNCTION|" ++ file ++ "||add|[2,3]",
        "EXIT|FUNCTION|" ++ file ++ "||add|5"], .ret (.num 5)) := by
  have hENTER : fnLogLine "ENTER" file "" "add" "[2,3]" =
      "ENTER|FUNCTION|" ++ file ++ "||add|[2,3]" := by
    apply String.ext
    simp [fnLogLine, String.data_append]
  have hEXIT : fnLogLine "EXIT" file "" "add" "5" =
      "EXIT|FUNCTION|" ++ file ++ "||add|5" := by
    apply String.ext
    simp [fnLogLine, String.data_append]
  have e1 : syncWrapperRun file "add" addBehavior [.num 2, .num 3] =
      ([fnLogLine "ENTER" file "" "add" "[2,3]",
        fnLogLine "EXIT" file "" "add" "5"], .ret (.num 5)) := rfl
  have e2 : babelSyncRun file "add" addBehavior [.num 2, .num 3] =
      ([fnLogLine "ENTER" file "" "add" "[2,3]",
        fnLogLine "EXIT" file "" "add" "5"], .ret (.num 5)) := rfl
  rw [e1, e2, hENTER, hEXIT]
  exact ⟨rfl, rfl⟩

/-! ## Endpoint wrapper runtime semantics

buildEndpointWrapperInline (express-endpoint-instrumenter.ts lines
50-76) generates

  ((__h) => (req, res, next) => \x7b
    const __start = Date.now();
    if (res && typeof res.once === a function) try \x7b
      res.once(finish, () => console.log(EXIT line with status/duration));
    \x7d catch \x7b\x7d
    const __in = \x7b params: req?.params, query: req?.query, body: req?.body \x7d;
    console.log(ENTER line with safeToString(__in));
    try \x7b
      const out = __h(req, res, next);
      if (out && typeof out.then === a function)
        return out.catch(e => \x7b console.error(ERROR line); throw e; \x7d);
      return out;
    \x7d catch (e) \x7b console.error(ERROR line); throw e; \x7d
  \x7d)(originalHandler)

Only a failure continuation is attached to a thenable result; the EXIT
of an endpoint is triggered by response completion, not by promise
resolution. Log lines are listed in emission order, continuation lines
last; ERROR lines go to console.error, merged here into one stream. -/

/-- One log line of the ENDPOINT family:
PHASE|ENDPOINT|VERB|path|file|payload. -/
def epLogLine (phase method route file payload : String) : String :=
  phase ++ "|ENDPOINT|" ++ method ++ "|" ++ route ++ "|" ++ file ++ "|" ++ payload

/-- Result of one invocation of the inline endpoint wrapper: the emitted
log lines, whether an EXIT-on-response-finish callback was registered,
and the outcome handed to the express framework. -/
structure EpRun where
  trace : List String
  exitOnFinish : Bool
  outcome : CallB
deriving Repr

/-- One invocation of the wrapper generated by buildEndpointWrapperInline
around a handler whose invocation outcome is h, on a request with the
given params, query and body; resHasOnce tells whether the response
object exposes a usable once method. -/
def endpointInlineRun (method route file : String)
    (params query reqBody : JVal) (resHasOnce : Bool) (h : CallB) : EpRun :=
  let inObj := JVal.obj [("params", params), ("query", query), ("body", reqBody)]
  let enter := epLogLine "ENTER" method route file (safeToString inObj)
  match h with
  | .thr e =>
      ⟨[enter, epLogLine "ERROR" method route file (safeToString e)],
       resHasOnce, .thr e⟩
  | .ret v => ⟨[enter], resHasOnce, .ret v⟩
  | .thenable (.resolves v) => ⟨[enter], resHasOnce, .thenable (.resolves v)⟩
  | .thenable (.rejects e) =>
      ⟨[enter, epLogLine "ERROR" method route file (safeToString e)],
       resHasOnce, .thenable (.rejects e)⟩

/-- Executable string prefix test on the underlying character data, used
to pick log lines of one phase out of a trace. -/
def startsWithStr (s p : String) : Bool := p.data.isPrefixOf s.data

/-- Counterexample to C3 as stated: the non-async standalone wrapper of
createStandaloneWrapper (ts-morph-function-tracer.ts lines 311-327),
applied to a construct returning a thenable that rejects, attaches no
continuations: it logs EXIT synchronously (the unresolved promise
serializes to the empty object) and never logs ERROR for that
invocation, contradicting on rejection it emits ERROR and never EXIT. -/
theorem syncWrapper_thenable_rejection_logs_exit_not_error :
    syncWrapperRun "f.ts" "f"
        (fun _ => .thenable (.rejects (.err "Error" "boom"))) [] =
      (["ENTER|FUNCTION|f.ts||f|[]", "EXIT|FUNCTION|f.ts||f|\x7b\x7d"],
       .thenable (.rejects (.err "Error" "boom"))) ∧
    ((syncWrapperRun "f.ts" "f"
        (fun _ => .thenable (.rejects (.err "Error" "boom"))) []).1.any
      (fun l => startsWithStr l "ERROR")) = false ∧
    ((syncWrapperRun "f.ts" "f"
        (fun _ => .thenable (.rejects (.err "Error" "boom"))) []).1.any
      (fun l => startsWithStr l "EXIT")) = true := by
  exact ⟨rfl, by decide, by decide⟩

/-- C3 amended: dispatch is on the declared async-ness of the construct,
not on the runtime shape of the result. The async wrapper awaits the
result: on resolution it emits EXIT with the resolved value and resolves
with the same value; on rejection it emits ERROR, never EXIT, and
re-rejects the identical reason. The non-async wrapper logs EXIT
synchronously and returns a thenable result unchanged with no
continuations attached. The inline endpoint wrapper is the one place the
thenable shape is tested at runtime, and it attaches only a failure
continuation: on rejection it emits ERROR and re-rejects the identical
reason; on resolution it resolves with the same value and emits no
promise-EXIT (endpoint EXIT comes from response completion instead). -/
theorem wrapper_thenable_behavior_as_implemented :
    (∀ (file fname : String) (f : List JVal → CallB) (args : List JVal)
        (v : JVal), f args = .thenable (.resolves v) →
        asyncWrapperRun file fname f args =
          ([fnLogLine "ENTER" file "" fname (safeToString (.arr args)),
            fnLogLine "EXIT" file "" fname (safeToString v)],
           .thenable (.resolves v))) ∧
    (∀ (file fname : String) (f : List JVal → CallB) (args : List JVal)
        (e : JVal), f args = .thenable (.rejects e) →
        asyncWrapperRun file fname f args =
          ([fnLogLine "ENTER" file "" fname (safeToString (.arr args)),
            fnLogLine "ERROR" file "" fname (safeToString e)],
           .thenable (.rejects e))) ∧
    (∀ (file fname : String) (f : List JVal → CallB) (args : List JVal)
        (p : PromiseB), f args = .thenable p →
        syncWrapperRun file fname f args =
          ([fnLogLine "ENTER" file "" fname (safeToString (.arr args)),
            fnLogLine "EXIT" file "" fname (safeToString .promiseV)],
           .thenable p)) ∧
    (∀ (method route file : String) (params query reqBody : JVal)
        (once : Bool) (v : JVal),
        endpointInlineRun method route file params query reqBody once
            (.thenable (.resolves v)) =
          ⟨[epLogLine "ENTER" method route file
              (safeToString (.obj [("params", params), ("query", query),
                ("body", reqBody)]))], once, .thenable (.resolves v)⟩) ∧
    (∀ (method route file : String) (params query reqBody : JVal)
        (once : Bool) (e : JVal),
        endpointInlineRun method route file params query reqBody once
            (.thenable (.rejects e)) =
          ⟨[epLogLine "ENTER" method route file
              (safeToString (.obj [("params", params), ("query", query),
                ("body", reqBody)])),
            epLogLine "ERROR" method route file (safeToString e)],
           once, .thenable (.rejects e)⟩) := by
  refine ⟨?_, ?_, ?_, ?_, ?_⟩
  · intro file fname f args v h
    simp [asyncWrapperRun, h]
  · intro file fname f args e h
    simp [asyncWrapperRun, h]
  · intro file fname f args p h
    simp [syncWrapperRun, h]
  · intro method route file params query reqBody once v
    rfl
  · intro method route file params query reqBody once e
    rfl

/-- Witness for the amended C3: the theorem applied to concrete
constructs whose results resolve and reject. -/
theorem wrapper_thenable_behavior_as_implemented_app :
    asyncWrapperRun "f.ts" "f"
        (fun _ => .thenable (.resolves (.num 7))) [] =
      ([fnLogLine "ENTER" "f.ts" "" "f" (safeToString (.arr [])),
        fnLogLine "EXIT" "f.ts" "" "f" (safeToString (.num 7))],
       .thenable (.resolves (.num 7))) ∧
    syncWrapperRun "f.ts" "f"
        (fun _ => .thenable (.resolves (.num 7))) [] =
      ([fnLogLine "ENTER" "f.ts" "" "f" (safeToString (.arr [])),
        fnLogLine "EXIT" "f.ts" "" "f" (safeToString .promiseV)],
       .thenable (.resolves (.num 7))) := by
  exact ⟨wrapper_thenable_behavior_as_implemented.1 "f.ts" "f" _ [] _ rfl,
    wrapper_thenable_behavior_as_implemented.2.2.1 "f.ts" "f" _ [] _ rfl⟩

/-! ## Route registration detection

A small model of the call expression shapes the detectors inspect: the
callee (a property access obj.m with an optional plain-identifier
receiver, a computed element access, a bare identifier, or anything
else) and the argument list (string literal, bare identifier, inline
function or lambda, other expression). -/

inductive CalleeM where
  /-- obj.m where objIdent is some name when obj is a plain identifier -/
  | propAccess (objIdent : Option String) (propName : String)
  /-- obj[expr], a computed member access -/
  | elemAccess
  | identCallee (name : String)
  | otherCallee
deriving Repr, DecidableEq

inductive ArgM where
  | strLit (s : String)
  | identArg (name : String)
  | fnInline
  | otherArg
deriving Repr, DecidableEq

structure CallNodeM where
  callee : CalleeM
  argsM : List ArgM
deriving Repr, DecidableEq

/-- The EXPRESS_METHODS set shared by ts-morph-function-tracer.ts line 24
and express-endpoint-instrumenter.ts line 4. -/
def expressMethodsEight : List String :=
  ["get", "post", "put", "delete", "patch", "head", "options", "all"]

/-- The EXPRESS_METHODS list of isExpressRouteCall in
babel-plugin-function-logger.js line 162. -/
def babelExpressMethods : List String := ["get", "post", "put", "delete"]

/-- Route-call detection of instrumentExpressEndpointsAst
(express-endpoint-instrumenter.ts lines 16-24) and of
findExpressEndpoints (ts-morph-function-tracer.ts lines 72-82), which
test identical conditions: the callee is a property access, the property
name is in the eight-method set, and the receiver is the identifier app
or router. -/
def isExpressRouteCallEp (c : CallNodeM) : Bool :=
  match c.callee with
  | .propAccess (some o) m =>
      expressMethodsEight.contains m && (o == "app" || o == "router")
  | _ => false

/-- Route-call detection of isExpressRouteCall
(babel-plugin-function-logger.js lines 155-167): the callee is a member
expression whose property is an identifier in the four-method list and
whose receiver is the identifier app or router. A computed member access
fails the property-identifier test. -/
def isExpressRouteCallBabel (c : CallNodeM) : Bool :=
  match c.callee with
  | .propAccess (some o) m =>
      babelExpressMethods.contains m && (o == "app" || o == "router")
  | _ => false

/-- Route path resolution shared by all three drafts
(express-endpoint-instrumenter.ts lines 28-30, ts-morph tracer lines
85-91, babel plugin extractRoutePath lines 169-176): the literal value of
the first argument when it is a string literal, the wildcard marker
otherwise. -/
def extractRoutePathM (c : CallNodeM) : String :=
  match c.argsM.head? with
  | some (.strLit s) => s
  | _ => "/*"

/-- The detection condition exactly as claim C7 words it: the receiver
is one of the routing-receiver identifiers app and router, and the
method name is in the eight-verb vocabulary. -/
def claimedRouteDetection (c : CallNodeM) : Bool :=
  match c.callee with
  | .propAccess (some o) m =>
      (o == "app" || o == "router") && expressMethodsEight.contains m
  | _ => false

/-- The babel detection condition in the same phrasing, with the
four-verb list the plugin actually carries. -/
def claimedRouteDetectionBabel (c : CallNodeM) : Bool :=
  match c.callee with
  | .propAccess (some o) m =>
      (o == "app" || o == "router") && babelExpressMethods.contains m
  | _ => false

/-- A concrete route registration app.patch(path, handler). -/
def patchRouteCall : CallNodeM :=
  ⟨.propAccess (some "app") "patch", [.strLit "/x", .fnInline]⟩

/-- Counterexample to C7 as stated: app.patch(path, handler) satisfies
the claimed detection condition (receiver app, method in the eight-verb
vocabulary), yet the babel plugin, one of the cited detectors, does not
instrument it: its method list stops at delete. -/
theorem babel_patch_route_not_detected :
    claimedRouteDetection patchRouteCall = true ∧
    isExpressRouteCallBabel patchRouteCall = false := by
  exact ⟨rfl, rfl⟩

/-- C7 amended: the ts-morph detectors instrument a call exactly when
the receiver is app or router and the method is in the eight-verb
vocabulary; the babel plugin instruments exactly when the receiver is
app or router and the method is in its four-verb list get, post, put,
delete; in every draft the resolved route path is the literal value of a
string-literal first argument and the wildcard marker otherwise. -/
theorem route_detection_as_implemented :
    (∀ c : CallNodeM, isExpressRouteCallEp c = claimedRouteDetection c) ∧
    (∀ c : CallNodeM,
        isExpressRouteCallBabel c = claimedRouteDetectionBabel c) ∧
    (∀ (callee : CalleeM) (s : String) (rest : List ArgM),
        extractRoutePathM ⟨callee, .strLit s :: rest⟩ = s) ∧
    (∀ (callee : CalleeM) (a : ArgM) (rest : List ArgM),
        (∀ s : String, a ≠ .strLit s) →
        extractRoutePathM ⟨callee, a :: rest⟩ = "/*") ∧
    (∀ callee : CalleeM, extractRoutePathM ⟨callee, []⟩ = "/*") := by
  refine ⟨?_, ?_, fun callee s rest => rfl, ?_, fun callee => rfl⟩
  · intro c
    rcases c with ⟨callee, args⟩
    cases callee with
    | propAccess o m =>
      cases o with
      | some o => simp [isExpressRouteCallEp, claimedRouteDetection, Bool.and_comm]
      | none => rfl
    | elemAccess => rfl
    | identCallee n => rfl
    | otherCallee => rfl
  · intro c
    rcases c with ⟨callee, args⟩
    cases callee with
    | propAccess o m =>
      cases o with
      | some o =>
        simp [isExpressRouteCallBabel, claimedRouteDetectionBabel, Bool.and_comm]
      | none => rfl
    | elemAccess => rfl
    | identCallee n => rfl
    | otherCallee => rfl
  · intro callee a rest h
    cases a with
    | strLit s => exact absurd rfl (h s)
    | identArg n => rfl
    | fnInline => rfl
    | otherArg => rfl

/-- Witness for the amended C7: the theorem applied to concrete call
nodes, discharging the non-literal hypothesis at an identifier argument. -/
theorem route_detection_as_implemented_app :
    isExpressRouteCallEp patchRouteCall = claimedRouteDetection patchRouteCall ∧
    extractRoutePathM ⟨.propAccess (some "app") "get",
        .identArg "h" :: []⟩ = "/*" := by
  exact ⟨route_detection_as_implemented.1 patchRouteCall,
    route_detection_as_implemented.2.2.2.1 (.propAccess (some "app") "get")
      (.identArg "h") [] (by intro s h; cases h)⟩

/-! ## C6: the app.post endpoint ENTER line -/

/-- JS String.prototype.toUpperCase on the method names in play. -/
def jsToUpperCase (s : String) : String := String.mk (s.data.map Char.toUpper)

/-- The ENTER statement addEndpointLogging
(babel-plugin-function-logger.js lines 200-215) prepends to an inline
handler body: a template literal ENTER|ENDPOINT|method|path|file|
followed by safeToString(req.body). -/
def babelEndpointEnterLine (method route file : String) (reqBody : JVal) :
    String :=
  "ENTER|ENDPOINT|" ++ method ++ "|" ++ route ++ "|" ++ file ++ "|" ++
    safeToString reqBody

/-- C6: for the registration app.post(users path, handler), the call is
detected as a route registration with path /users and uppercased verb
POST, and a request makes the installed inline wrapper emit, as its
first log line, a line equal to the literal ENTER|ENDPOINT|POST|/users|
followed by the file base name, a pipe and the serialized request
snapshot; the babel draft prepends a statement logging a line of the
same shape. -/
theorem post_users_enter_line
    (file : String) (params query reqBody : JVal) (once : Bool) (h : CallB) :
    isExpressRouteCallEp
        ⟨.propAccess (some "app") "post", [.strLit "/users", .fnInline]⟩ =
      true ∧
    extractRoutePathM
        ⟨.propAccess (some "app") "post", [.strLit "/users", .fnInline]⟩ =
      "/users" ∧
    jsToUpperCase "post" = "POST" ∧
    (∃ payload : String,
      (endpointInlineRun "POST" "/users" file params query reqBody once
          h).trace.head? =
        some ("ENTER|ENDPOINT|POST|/users|" ++ file ++ "|" ++ payload)) ∧
    (∃ payload : String,
      babelEndpointEnterLine "POST" "/users" file reqBody =
        "ENTER|ENDPOINT|POST|/users|" ++ file ++ "|" ++ payload) := by
  have hline : ∀ payload : String,
      epLogLine "ENTER" "POST" "/users" file payload =
        "ENTER|ENDPOINT|POST|/users|" ++ file ++ "|" ++ payload := by
    intro payload
    apply String.ext
    simp [epLogLine, String.data_append]
  refine ⟨rfl, rfl, by decide, ?_, ?_⟩
  · refine ⟨safeToString (.obj [("params", params), ("query", query),
      ("body", reqBody)]), ?_⟩
    cases h with
    | ret v => rw [← hline]; rfl
    | thr e => rw [← hline]; rfl
    | thenable p => cases p with
      | resolves v => rw [← hline]; rfl
      | rejects e => rw [← hline]; rfl
  · refine ⟨safeToString reqBody, ?_⟩
    apply String.ext
    simp [babelEndpointEnterLine, String.data_append]

/-! ## C8: handlers passed as bare function references -/

/-- One invocation of the wrapper generated by buildEndpointWrapperRef
(express-endpoint-instrumenter.ts lines 78-84):

  (req, res, next) => \x7b
    console.log(ENTER line whose payload is the handler name);
    return handlerName(req, res, next);
  \x7d

The trace and the argument list handed to the referenced handler, whose
behavior on those arguments is the parameter handler. -/
def endpointRefRun (method route file handlerName : String)
    (handler : List JVal → CallB) (req res nxt : JVal) :
    List String × CallB :=
  ([epLogLine "ENTER" method route file handlerName],
   handler [req, res, nxt])

/-- One invocation of the wrapper generated by
instrumentFunctionReference (ts-morph-function-tracer.ts lines 188-194):

  (req, res, next) => \x7b
    console.log(ENTER line whose payload is safeToString(req?.body or an
      empty object));
    return handlerName(req, res);
  \x7d

The third parameter is accepted but not forwarded, and the payload is
the serialized request body, not the handler name. reqBody is none when
the request lacks a body (the generated code then falls back to the
empty object). -/
def tsMorphRefRun (method route file : String) (reqBody : Option JVal)
    (handler : List JVal → CallB) (req res nxt : JVal) :
    List String × CallB :=
  ([epLogLine "ENTER" method route file
      (safeToString (reqBody.getD (JVal.obj [])))],
   handler [req, res])

/-- A handler that returns its own argument list, making the forwarded
calling convention observable in the outcome. -/
def echoArgs : List JVal → CallB := fun args => .ret (.arr args)

/-- Counterexample to C8 as stated: the reference wrapper of the
ts-morph tracer, one of the cited instrumenters, logs the serialized
request body rather than the referenced function name, and forwards only
(req, res), dropping the chaining next-continuation argument. -/
theorem tsmorph_ref_wrapper_drops_next :
    tsMorphRefRun "GET" "/x" "f.ts" (some (.obj [])) echoArgs
        (.str "REQ") (.str "RES") (.str "NEXT") =
      (["ENTER|ENDPOINT|GET|/x|f.ts|\x7b\x7d"],
       .ret (.arr [.str "REQ", .str "RES"])) ∧
    ¬ (tsMorphRefRun "GET" "/x" "f.ts" (some (.obj [])) echoArgs
        (.str "REQ") (.str "RES") (.str "NEXT")).2 =
      .ret (.arr [.str "REQ", .str "RES", .str "NEXT"]) ∧
    ¬ (tsMorphRefRun "GET" "/x" "f.ts" (some (.obj [])) echoArgs
        (.str "REQ") (.str "RES") (.str "NEXT")).1 =
      ["ENTER|ENDPOINT|GET|/x|f.ts|myHandler"] := by
  refine ⟨rfl, ?_, ?_⟩
  · intro h
    simp [tsMorphRefRun, echoArgs] at h
  · intro h
    have e : (tsMorphRefRun "GET" "/x" "f.ts" (some (.obj [])) echoArgs
        (.str "REQ") (.str "RES") (.str "NEXT")).1 =
        ["ENTER|ENDPOINT|GET|/x|f.ts|\x7b\x7d"] := rfl
    rw [e] at h
    simp at h
/-- C8 amended: the endpoint instrumenter synthesizes a forwarding
handler of identical calling convention that logs ENDPOINT ENTER with
the referenced function name and forwards (req, res, next) unmodified;
the ts-morph tracer draft instead logs the serialized request body and
forwards only (req, res), dropping the next-continuation argument. -/
theorem ref_wrapper_behavior_as_implemented :
    (∀ (method route file handlerName : String)
        (handler : List JVal → CallB) (req res nxt : JVal),
        endpointRefRun method route file handlerName handler req res nxt =
          ([epLogLine "ENTER" method route file handlerName],
           handler [req, res, nxt])) ∧
    (∀ (method route file : String) (b : Option JVal)
        (handler : List JVal → CallB) (req res nxt : JVal),
        tsMorphRefRun method route file b handler req res nxt =
          ([epLogLine "ENTER" method route file
              (safeToString (b.getD (JVal.obj [])))],
           handler [req, res])) := by
  exact ⟨fun m r f n h req res nxt => rfl, fun m r f b h req res nxt => rfl⟩

/-! ## C2: the return-rewriting draft of createInstrumentedBody

createInstrumentedBody (unnamed part 001, lines 611-721) rewrites a
function body by (1) placing ENTER inside a try block, (2) replacing
every top-level return statement st by the block
\x7b console.log(EXIT line with stringify([st.expression])); st \x7d,
(3) appending a bare EXIT log when the last statement is not a return,
and (4) catching any exception to log ERROR with
\x7b message: error.message, name: error.name \x7d and rethrow it. The
EXIT log re-evaluates the return expression: for a body return g() the
call g() runs once inside the EXIT log and again in the kept return
statement (sanitizeExpression replaces only await expressions by a
placeholder and keeps calls). -/

/-- Outcome of one evaluation of a synchronous expression. -/
inductive SyncB where
  | retS (v : JVal)
  | thrS (e : JVal)
deriving Repr

/-- JSON.stringify with the replacer of createSafeReplacerFunction
applied to a tree value: no special casing of Error instances (their own
enumerable properties are empty), promise objects likewise empty; the
WeakSet circular marking needs value identity and is modelled on the
heap model below - a tree value is never revisited. -/
def stringifyPlain : JVal → Option String
  | .null => some "null"
  | .undefV => none
  | .bool b => some (cond b "true" "false")
  | .num n => some (toString n)
  | .str s => some (quoteJson s)
  | .err _ _ => some "\x7b\x7d"
  | .promiseV => some "\x7b\x7d"
  | .arr es => some ("[" ++ String.intercalate "," (serElemsP es) ++ "]")
  | .obj fs => some ("\x7b" ++ String.intercalate "," (serFieldsP fs) ++ "\x7d")
where
  serElemsP : List JVal → List String
    | [] => []
    | e :: es => (stringifyPlain e).getD "null" :: serElemsP es
  serFieldsP : List (String × JVal) → List String
    | [] => []
    | (k, v) :: fs =>
      match stringifyPlain v with
      | some s => (quoteJson k ++ ":" ++ s) :: serFieldsP fs
      | none => serFieldsP fs

/-- createSafeJsonStringifyCall (safe-json-serializer.ts lines 105-147)
wraps its argument expressions in an array literal and stringifies it. -/
def safeJsonStringifyArr (vs : List JVal) : String :=
  "[" ++ String.intercalate ","
    (vs.map (fun v => (stringifyPlain v).getD "null")) ++ "]"

/-- The object literal \x7b message: error.message, name: error.name \x7d
built by the catch clause of createInstrumentedBody (lines 701-716); a
thrown non-Error value yields undefined member accesses. -/
def errLogProps (e : JVal) : JVal :=
  match e with
  | .err ename emsg => .obj [("message", .str emsg), ("name", .str ename)]
  | _ => .obj [("message", .undefV), ("name", .undefV)]

/-- One invocation of a zero-parameter module-scope function whose body
is return g();, as rewritten by createInstrumentedBody. The behavior of
the impure callee g is given per call index: index 0 is the evaluation
inside the EXIT log statement, index 1 the evaluation in the kept return
statement. If the first evaluation throws, the EXIT line never prints
and the catch clause logs ERROR; if it returns, the EXIT line prints
and the second evaluation runs, whose exception is still caught by the
same try, logging ERROR after the EXIT line already printed. -/
def instrumentedReturnRun (file fname : String) (g : Nat → SyncB) :
    List String × SyncB :=
  let enter := fnLogLine "ENTER" file "" fname "[]"
  match g 0 with
  | .thrS e =>
      ([enter,
        fnLogLine "ERROR" file "" fname (safeJsonStringifyArr [errLogProps e])],
       .thrS e)
  | .retS v =>
      let exitLine := fnLogLine "EXIT" file "" fname (safeJsonStringifyArr [v])
      match g 1 with
      | .retS w => ([enter, exitLine], .retS w)
      | .thrS e =>
          ([enter, exitLine,
            fnLogLine "ERROR" file "" fname
              (safeJsonStringifyArr [errLogProps e])],
           .thrS e)

/-- A callee that returns 1 on its first evaluation and throws on the
second: an impure function whose state changed between the two calls the
rewritten body makes. -/
def gFlaky : Nat → SyncB :=
  fun i => if i == 0 then .retS (.num 1) else .thrS (.err "Error" "boom")

/-- C2 failing input: under the return-rewriting draft of
createInstrumentedBody, the invocation of function f() \x7b return g();
\x7d with the flaky callee logs ENTER, then EXIT with payload [1], then
ERROR - both EXIT and ERROR for the same invocation, against the claimed
invariant (the other two drafts compute the result once and satisfy
it). -/
theorem instrumented_return_emits_exit_and_error :
    instrumentedReturnRun "f.ts" "f" gFlaky =
      (["ENTER|FUNCTION|f.ts||f|[]",
        "EXIT|FUNCTION|f.ts||f|[1]",
        "ERROR|FUNCTION|f.ts||f|[\x7b\"message\":\"boom\",\"name\":\"Error\"\x7d]"],
       .thrS (.err "Error" "boom")) ∧
    ((instrumentedReturnRun "f.ts" "f" gFlaky).1.any
      (fun l => startsWithStr l "EXIT|")) = true ∧
    ((instrumentedReturnRun "f.ts" "f" gFlaky).1.any
      (fun l => startsWithStr l "ERROR|")) = true := by
  exact ⟨by rfl, by decide, by decide⟩

/-! ## C9: disabled builds emit only the import-path rewrite

The emit pipeline of buildWithInstrumentation (unnamed part 003) runs
two before-transformers in order: createFunctionTracerTransformer
(unnamed part 001, lines 373-378), which returns the identity
source-file transformer when the enabled option is false, then
createImportExtensionTransformer (unnamed part 004), which appends .js
to relative import/export module specifiers lacking a recognized
extension. A module is modelled as its statement list; import and export
declarations carry their module specifier and every other statement is
opaque. -/

inductive StmtM where
  | importD (spec : String)
  /-- an export declaration; none when it has no module specifier -/
  | exportD (spec : Option String)
  | otherS (code : Nat)
deriving Repr, DecidableEq

/-- The specifier tests of createImportExtensionTransformer (unnamed
part 004, lines 12-13 and 31-32). -/
def isRelativeSpec (s : String) : Bool :=
  s.startsWith "./" || s.startsWith "../"

def hasRecognizedExt (s : String) : Bool :=
  s.endsWith ".js" || s.endsWith ".ts" || s.endsWith ".tsx"

/-- The specifier rewrite of createImportExtensionTransformer. -/
def rewriteSpec (s : String) : String :=
  if isRelativeSpec s && !hasRecognizedExt s then s ++ ".js" else s

/-- createImportExtensionTransformer (unnamed part 004): rewrite the
module specifier of import and export declarations, leave every other
statement untouched. -/
def importExtensionTransform : List StmtM → List StmtM
  | [] => []
  | .importD s :: rest => .importD (rewriteSpec s) :: importExtensionTransform rest
  | .exportD (some s) :: rest =>
      .exportD (some (rewriteSpec s)) :: importExtensionTransform rest
  | st :: rest => st :: importExtensionTransform rest

/-- createFunctionTracerTransformer (unnamed part 001, lines 373-378):
with enabled false it is the identity transformer; with enabled true it
applies the instrumenting traversal. -/
def functionTracerTransformer (enabled : Bool)
    (instrument : List StmtM → List StmtM) (m : List StmtM) : List StmtM :=
  if enabled then instrument m else m

/-- The before-transformer pipeline of program.emit in
buildWithInstrumentation (unnamed part 003): tracer first, then the
rewrite of import extensions. -/
def emitPipeline (enabled : Bool) (instrument : List StmtM → List StmtM)
    (m : List StmtM) : List StmtM :=
  importExtensionTransform (functionTracerTransformer enabled instrument m)

/-- The disabled-mode output exactly as claim C9 words it: the input
with .js appended to relative import/export specifiers lacking a
recognized extension, and nothing else changed. -/
def specDisabledEmit : List StmtM → List StmtM
  | [] => []
  | .importD s :: rest =>
      .importD (if isRelativeSpec s && !hasRecognizedExt s then s ++ ".js" else s)
        :: specDisabledEmit rest
  | .exportD (some s) :: rest =>
      .exportD (some (if isRelativeSpec s && !hasRecognizedExt s then s ++ ".js"
        else s)) :: specDisabledEmit rest
  | st :: rest => st :: specDisabledEmit rest

/-- C9: with the enable flag off, the emitted statement list of every
module equals the input with only the import-path rewrite applied,
whatever the instrumenting traversal would have done; with the flag on,
the pipeline applies the instrumenting traversal before the rewrite. -/
theorem disabled_build_import_rewrite_only
    (instrument : List StmtM → List StmtM) (m : List StmtM) :
    emitPipeline false instrument m = specDisabledEmit m ∧
    emitPipeline true instrument m =
      importExtensionTransform (instrument m) := by
  constructor
  · show importExtensionTransform m = specDisabledEmit m
    induction m with
    | nil => rfl
    | cons st rest ih =>
      cases st with
      | importD s =>
        simp [importExtensionTransform, specDisabledEmit, rewriteSpec, ih]
      | exportD o =>
        cases o with
        | none => simp [importExtensionTransform, specDisabledEmit, ih]
        | some s =>
          simp [importExtensionTransform, specDisabledEmit, rewriteSpec, ih]
      | otherS c =>
        simp [importExtensionTransform, specDisabledEmit, ih]
  · rfl

/-! ## C10: the structural serializer and its per-call visited set

The code generated by createSafeJsonStringifyCall
(safe-json-serializer.ts lines 105-147) is

  (() => \x7b
    const visited = new WeakSet();
    return JSON.stringify([args], replacer);
  \x7d)()

with the replacer of createSafeReplacerFunction (lines 155-278):

  (key, value) => \x7b
    try \x7b
      if (typeof value === an object type && value !== null) \x7b
        if (visited.has(value)) return the circular marker;
        visited.add(value);
        if (value.constructor name is IncomingMessage) return [Request];
        if (value.constructor name is ServerResponse) return [Response];
      \x7d
      return value;
    \x7d catch (err) \x7b return [Object]; \x7d
  \x7d

Object identity matters here, so objects live on an explicit heap:
a reference names a heap slot holding a constructor name and a field
list. The WeakSet becomes the list of visited slot indices, threaded
through the depth-first serialization exactly as JSON.stringify calls
the replacer; the argument array literal itself is fresh on every call
and never recurs, so it is not tracked. -/

/-- A serializable reference: a primitive or a pointer into the heap. -/
inductive JRef where
  | pnum (n : Int)
  | pstr (s : String)
  | ref (i : Nat)
deriving Repr, DecidableEq

/-- One heap object: its constructor name and its enumerable fields. -/
structure HObj where
  ctor : String
  fields : List (String × JRef)
deriving Repr, DecidableEq

/-- Depth-first serialization of one reference under the replacer, with
the current visited set; returns the rendered JSON fragment and the
visited set after the replacer ran on this subtree. The fuel bounds the
reference-chasing depth; every run below supplies more fuel than the
heap has objects, and the visited set cuts every revisit first. -/
def serRef (heap : List HObj) : Nat → List Nat → JRef → String × List Nat
  | _, visited, .pnum n => (toString n, visited)
  | _, visited, .pstr s => (quoteJson s, visited)
  | 0, visited, .ref _ => (quoteJson "[MaxDepth]", visited)
  | Nat.succ fuel, visited, .ref i =>
      if visited.contains i then (quoteJson "[Circular]", visited)
      else
        let v1 := i :: visited
        let o := heap.getD i ⟨"Object", []⟩
        if o.ctor == "IncomingMessage" then (quoteJson "[Request]", v1)
        else if o.ctor == "ServerResponse" then (quoteJson "[Response]", v1)
        else
          let folded := o.fields.foldl (fun acc kv =>
            let sv := serRef heap fuel acc.2 kv.2
            (acc.1 ++ [quoteJson kv.1 ++ ":" ++ sv.1], sv.2)) ([], v1)
          ("\x7b" ++ String.intercalate "," folded.1 ++ "\x7d", folded.2)

/-- One execution of the generated serializer call: a fresh visited set
is created, then the argument array is stringified, threading the
visited set through the arguments in order. -/
def safeJsonStringifyRun (heap : List HObj) (args : List JRef) : String :=
  let folded := args.foldl (fun acc a =>
    let sv := serRef heap (heap.length + 1) acc.2 a
    (acc.1 ++ [sv.1], sv.2)) ([], [])
  "[" ++ String.intercalate "," folded.1 ++ "]"

/-- Two serialization calls on the same value, as two separate logging
statements make them: each executes the generated IIFE anew, so each
starts from a fresh visited set. -/
def safeJsonStringifyTwice (heap : List HObj) (args : List JRef) :
    String × String :=
  (safeJsonStringifyRun heap args, safeJsonStringifyRun heap args)

/-- A heap in which slot 0 holds an object whose fields x and y both
point at slot 1 - the same object shared at two positions, with no
cycle anywhere. -/
def sharedHeap : List HObj :=
  [⟨"Object", [("x", .ref 1), ("y", .ref 1)]⟩,
   ⟨"Object", [("a", .pnum 1)]⟩]

/-- C10: the serializer creates its visited set fresh on every call;
within a single call the second occurrence of the shared object
serializes as the circular marker even though no cycle exists, and a
later, separate call on the same value serializes it fully again,
producing the identical output with the full rendering of the shared
object at its first position. -/
theorem shared_object_circular_marker_fresh_per_call :
    safeJsonStringifyTwice sharedHeap [.ref 0] =
      ("[\x7b\"x\":\x7b\"a\":1\x7d,\"y\":\"[Circular]\"\x7d]",
       "[\x7b\"x\":\x7b\"a\":1\x7d,\"y\":\"[Circular]\"\x7d]") ∧
    safeJsonStringifyRun sharedHeap [.ref 0, .ref 0] =
      "[\x7b\"x\":\x7b\"a\":1\x7d,\"y\":\"[Circular]\"\x7d,\"[Circular]\"]" := by
  exact ⟨by rfl, by rfl⟩
